import Mathlib

/-!
Verification of the Well-Architected review orchestrator (uurtech/waar).

The development shallowly embeds the Review Session Orchestrator
(`WellArchitectedReviewService` in `src/app/src/services/aws.js`), the
comprehensive-collection join (`AWSService.performComprehensiveAnalysis` in
`src/app/src/routes/index.js`), the Bedrock response handling
(`src/app/src/services/bedrock.js`) and the HTTP start route
(`src/app/src/routes/analysis.js`) over a relational model of the SQLite
store created by `src/app/src/database/init.js`.

Modelling conventions:
* SQLite tables are lists of typed rows; `TEXT` columns holding serialized
  JSON written by the core are modelled by inductive values recording the
  payload that was stringified (`BlobVal`), since no query inspects the JSON
  text itself.
* JS numbers used as confidence scores (0.9, 0.8, ...) are embedded as `Rat`.
* Calls to external collaborators (the Bedrock engine, the AWS SDK) are
  modelled by passing the call's outcome as an explicit argument.
* Timestamp columns (`created_at`, `updated_at`) are not modelled: no query
  of the embedded operations reads them.
-/

namespace Waar

/-- Row of the `questions` table (`init.js` lines 104-115): autoincrement id,
pillar foreign key, unique `question_key`, display text, category, integer
priority (DEFAULT 1). -/
structure Question where
  qid : Nat
  pillar_id : Nat
  question_key : String
  question_text : String
  category : String
  priority : Int
  deriving DecidableEq

/-- Row of the `pillars` table (`init.js` lines 94-101): autoincrement id,
unique name and description. -/
structure Pillar where
  pid : Nat
  name : String
  description : String
  deriving DecidableEq

/-- Row of the `answers` table (`init.js` lines 118-130).  The table declares
`id INTEGER PRIMARY KEY AUTOINCREMENT` and no other uniqueness constraint —
in particular there is no `UNIQUE (question_id, session_id)`. -/
structure Answer where
  aid : Nat
  question_id : Nat
  session_id : String
  answer_text : String
  confidence_score : Rat
  source : String
  deriving DecidableEq

/-- One sub-collector result as produced by the `analyze*` methods of
`AWSService` (`routes/index.js`): a success flag, optional machine-readable
`errorType`, optional `error` and `userMessage` strings, and an optional data
payload.  The payload type is a parameter because the comprehensive join
moves payloads without inspecting them. -/
structure ServiceResult (δ : Type) where
  success : Bool
  errorType : Option String
  error : Option String
  userMessage : Option String
  data : Option δ
  deriving DecidableEq

/-- Outcome of one branch of the `Promise.allSettled` join in
`performComprehensiveAnalysis` (`routes/index.js` lines 1266-1280): the
promise either fulfilled with a `ServiceResult` or rejected. -/
inductive SettledResult (δ : Type) where
  | fulfilled (value : ServiceResult δ)
  | rejected
  deriving DecidableEq

/-- A per-service entry of `serviceErrors` / `serviceWarnings`
(`routes/index.js` lines 1296-1312). -/
structure ServiceIssue where
  service : String
  message : Option String
  type : String
  deriving DecidableEq

/-- The `serviceStatus` object of the comprehensive analysis
(`routes/index.js` lines 1322-1327). -/
structure ServiceStatus where
  errors : List ServiceIssue
  warnings : List ServiceIssue
  successfulServices : Nat
  totalServices : Nat
  deriving DecidableEq

/-- The `comprehensiveAnalysis` object (`routes/index.js` lines 1314-1336):
the six per-service data payloads plus the service status.  The `timestamp`
field (wall clock) and the derived `summary` display object are not
modelled; no embedded operation reads them. -/
structure Comprehensive (δ : Type) where
  trustedAdvisor : Option δ
  cost : Option δ
  iam : Option δ
  compute : Option δ
  cloudWatch : Option δ
  config : Option δ
  serviceStatus : ServiceStatus
  deriving DecidableEq

/-- Return value of `performComprehensiveAnalysis`
(`routes/index.js` lines 1349-1361). -/
structure CompCall (δ : Type) where
  success : Bool
  error : Option String
  data : Option (Comprehensive δ)
  deriving DecidableEq

/-- In the session store the per-service payloads are opaque serialized
blobs; the stored environment snapshot is a `Comprehensive` over them. -/
abbrev EnvData := Comprehensive String

/-- One auto-answer returned by `analyzeAWSDataForWellArchitected`
(`bedrock.js` lines 862-881); the `pillar`/`dataSource` display fields are
not read downstream and are not modelled. -/
structure AutoAnswer where
  questionKey : String
  answer : String
  confidence : Rat
  deriving DecidableEq

/-- Parsed result of `analyzeAWSDataForWellArchitected`.  Fields are optional
because they come from parsed JSON and may be absent; display-only fields
(`questionsNeedingUserInput`, `summary`) are not modelled. -/
structure AgentAnalysisResult where
  autoAnswers : Option (List AutoAnswer)
  autoAnsweredQuestions : Option Nat
  deriving DecidableEq

/-- One derived answer of `analyzeUserAnswer`'s `additionalAnswers`
(`bedrock.js` lines 932-939); the `reasoning` display field is not read
downstream. -/
structure AdditionalAnswer where
  questionKey : String
  answer : String
  confidence : Rat
  deriving DecidableEq

/-- The `primaryAnswer` object of `analyzeUserAnswer`'s response. -/
structure PrimaryAnswer where
  questionKey : String
  analysis : String
  confidence : Rat
  deriving DecidableEq

/-- Parsed result of `analyzeUserAnswer` (`bedrock.js` lines 925-968).
Fields are optional because parsed JSON may omit them. -/
structure UserAnswerAnalysis where
  primaryAnswer : Option PrimaryAnswer
  additionalAnswers : Option (List AdditionalAnswer)
  suggestions : Option (List String)
  deriving DecidableEq

/-- The final report returned by `generateWellArchitectedReport`
(`bedrock.js` lines 996-1074).  Only the two scalar fields are modelled; the
remaining display payload (pillar details, action plan, cost impact) is
never read by the orchestrator. -/
structure Report where
  overallScore : Rat
  maturityLevel : String
  deriving DecidableEq

/-- A row of the `:sessionId/unanswered`-style result set of
`getUnansweredQuestions` (`aws.js` lines 486-497): the selected columns
`q.id, q.question_key, q.question_text, q.category, p.name`. -/
structure UnansweredQ where
  qid : Nat
  question_key : String
  question_text : String
  category : String
  pillar_name : String
  deriving DecidableEq

/-- Value of a serialized-JSON `TEXT` column of `analysis_sessions`, by
intended writer: the insert of `storeInitialAnalysis` (`aws.js` line 463)
would write `initial`, and the final update of `startReview` (`aws.js` lines
429-439) writes `final`.  Neither write is reachable in execution (the
insert always throws first, see `storeInitialAnalysis`); the shapes are kept
for the reference translation of that dead code. -/
inductive BlobVal where
  | initial (awsData : Option EnvData) (agent : AgentAnalysisResult)
  | final (awsData : Option EnvData) (agent : AgentAnalysisResult)
      (autoAnswered totalQuestions unanswered : Nat) (next : Option UnansweredQ)
  deriving DecidableEq

/-- Row of the `analysis_sessions` table (`init.js` lines 133-143): columns
`id, codebase_path, analysis_status, bedrock_analysis, recommendations`
(the two timestamp columns are not read by any embedded operation).  The
table declares no `progress_data` column, although `updateProgress` and
`storeInitialAnalysis` (`aws.js` lines 388, 463) name one — see those
definitions. -/
structure SessionRow where
  sid : String
  codebase_path : Option String
  analysis_status : String
  bedrock_analysis : Option BlobVal
  recommendations : Option Report
  deriving DecidableEq

/-- The relational state.  `nextAnswerId` models the autoincrement allocator
of the `answers` rowid.  `reportCalls` is not a table: it is an event counter
recording how many times `bedrockService.generateWellArchitectedReport` has
been invoked, the observable used to state the once-per-session property. -/
structure DB where
  pillars : List Pillar
  questions : List Question
  answers : List Answer
  sessions : List SessionRow
  nextAnswerId : Nat
  reportCalls : Nat
  deriving DecidableEq

/-- `SELECT * FROM questions WHERE question_key = ?`: `question_key` is
declared UNIQUE, so the first match is the row. -/
def findQuestionByKey (db : DB) (key : String) : Option Question :=
  db.questions.find? (fun q => q.question_key == key)

/-- `SELECT * FROM analysis_sessions WHERE id = ?` (`id` is the primary
key). -/
def getSession (db : DB) (sid : String) : Option SessionRow :=
  db.sessions.find? (fun s => s.sid == sid)

/-- `INSERT OR REPLACE INTO answers (question_id, session_id, answer_text,
confidence_score, source, created_at) VALUES (...)` as used at `aws.js`
lines 477, 522 and 538.  The `answers` table's only uniqueness constraint is
the rowid primary key `id`, which the statement does not supply; SQLite
assigns a fresh autoincrement rowid, so `OR REPLACE` never finds a
conflicting row and the statement appends a new row — it does not replace
the existing row for the same `(question_id, session_id)` pair. -/
def answersInsertOrReplace (db : DB) (qid : Nat) (sess : String)
    (text : String) (conf : Rat) (src : String) : DB :=
  { db with
    answers := db.answers ++ [⟨db.nextAnswerId, qid, sess, text, conf, src⟩],
    nextAnswerId := db.nextAnswerId + 1 }

/-- `INSERT OR REPLACE INTO analysis_sessions (...)`: here `id` is supplied
and is the TEXT primary key, so an existing row with the same id is deleted
and the fresh row (with unlisted columns at their NULL defaults) is
inserted. -/
def sessionsInsertOrReplace (db : DB) (row : SessionRow) : DB :=
  { db with sessions := db.sessions.filter (fun s => !(s.sid == row.sid)) ++ [row] }

/-- `INSERT INTO analysis_sessions ...` (plain insert, `analysis.js` line
1527): appends the row. -/
def sessionsInsert (db : DB) (row : SessionRow) : DB :=
  { db with sessions := db.sessions ++ [row] }

/-- `UPDATE analysis_sessions SET ... WHERE id = ?`: applies `f` to the
matching rows (the primary key makes at most one). -/
def sessionsUpdate (db : DB) (sid : String) (f : SessionRow → SessionRow) : DB :=
  { db with sessions := db.sessions.map (fun s => if s.sid == sid then f s else s) }

/-- True when some `answers` row joins the question for this session, i.e.
the question is answered (`aws.js` LEFT JOIN at lines 491-492). -/
def hasAnswer (db : DB) (sess : String) (qid : Nat) : Bool :=
  db.answers.any (fun a => a.question_id == qid && a.session_id == sess)

/-- The rows of `answers` for one `(question, session)` pair. -/
def answersFor (db : DB) (qid : Nat) (sess : String) : List Answer :=
  db.answers.filter (fun a => a.question_id == qid && a.session_id == sess)

/-- `SELECT COUNT(*) FROM questions`. -/
def getTotalQuestions (db : DB) : Nat :=
  db.questions.length

/-! ### Comprehensive environment collection (`routes/index.js`) -/

/-- JS `a || b` on two optional strings: `a` unless it is absent or the empty
string (both falsy), as in `result.userMessage || result.error`
(`routes/index.js` lines 1301, 1307). -/
def jsOrStr (a b : Option String) : Option String :=
  match a with
  | some s => if s == "" then b else some s
  | none => b

/-- Extraction of one branch after the `allSettled` join (`routes/index.js`
lines 1284-1289): a fulfilled promise contributes its value, a rejected one
the literal `{ success: false, error: 'Analysis failed', data: null }`. -/
def resolveSettled {δ : Type} (x : SettledResult δ) : ServiceResult δ :=
  match x with
  | .fulfilled r => r
  | .rejected => { success := false, errorType := none,
                   error := some "Analysis failed", userMessage := none, data := none }

/-- The ordered `Object.entries(serviceResults)` list iterated at
`routes/index.js` line 1296. -/
def serviceEntries {δ : Type} (ta c i co cw cf : SettledResult δ) :
    List (String × ServiceResult δ) :=
  [("trustedAdvisor", resolveSettled ta), ("cost", resolveSettled c),
   ("iam", resolveSettled i), ("compute", resolveSettled co),
   ("cloudWatch", resolveSettled cw), ("config", resolveSettled cf)]

/-- The `forEach` classification at `routes/index.js` lines 1296-1312: each
failed service pushes one entry, to `serviceWarnings` when its `errorType`
is `SUBSCRIPTION_REQUIRED` and to `serviceErrors` otherwise. -/
def classifyIssues {δ : Type} (es : List (String × ServiceResult δ)) :
    List ServiceIssue × List ServiceIssue :=
  es.foldl
    (fun acc nr =>
      if nr.2.success then acc
      else if nr.2.errorType == some "SUBSCRIPTION_REQUIRED" then
        (acc.1, acc.2 ++ [⟨nr.1, jsOrStr nr.2.userMessage nr.2.error, "warning"⟩])
      else
        (acc.1 ++ [⟨nr.1, jsOrStr nr.2.userMessage nr.2.error, "error"⟩], acc.2))
    ([], [])

/-- `AWSService.performComprehensiveAnalysis` (`routes/index.js` lines
1261-1362) given the outcomes of the six sub-collector promises: joins with
`Promise.allSettled`, classifies failures into per-service errors and
warnings, keeps every branch's data payload, and returns `success: true`
with the aggregate (the body after the join is straight-line and cannot
throw, so the outer catch path is unreachable). -/
def performComprehensiveAnalysis {δ : Type} (ta c i co cw cf : SettledResult δ) :
    CompCall δ :=
  let es := serviceEntries ta c i co cw cf
  let issues := classifyIssues es
  { success := true
    error := none
    data := some
      { trustedAdvisor := (resolveSettled ta).data
        cost := (resolveSettled c).data
        iam := (resolveSettled i).data
        compute := (resolveSettled co).data
        cloudWatch := (resolveSettled cw).data
        config := (resolveSettled cf).data
        serviceStatus :=
          { errors := issues.1
            warnings := issues.2
            successfulServices := (es.filter (fun nr => nr.2.success)).length
            totalServices := es.length } } }

/-- The stub data object built by `analyzeTrustedAdvisor`'s
subscription-required catch branch (`routes/index.js` lines 1062-1067):
`{ totalChecks: 0, checkResults: [], summary: { available: false, reason:
'Premium Support subscription required' }, recommendations: [] }`.  Check
results and recommendations are opaque to the join and modelled as
strings. -/
structure TACatchData where
  totalChecks : Nat
  checkResults : List String
  summaryAvailable : Bool
  summaryReason : Option String
  recommendations : List String
  deriving DecidableEq

/-- The catch branch of `analyzeTrustedAdvisor` (`routes/index.js` lines
1052-1078), classifying the thrown error: `SubscriptionRequiredException`
(by `name` or `__type`) yields `errorType SUBSCRIPTION_REQUIRED` with the
unavailable-stub data; anything else yields `GENERAL_ERROR` with null
data. -/
def analyzeTrustedAdvisorCatch (errName errType errMessage : String) :
    ServiceResult TACatchData :=
  if errName == "SubscriptionRequiredException" || errType == "SubscriptionRequiredException" then
    { success := false
      error := some "Premium Support subscription required for Trusted Advisor"
      errorType := some "SUBSCRIPTION_REQUIRED"
      userMessage := some "Trusted Advisor requires AWS Business or Enterprise Support plan. Analysis will continue with other AWS services."
      data := some ⟨0, [], false, some "Premium Support subscription required", []⟩ }
  else
    { success := false
      error := some errMessage
      errorType := some "GENERAL_ERROR"
      userMessage := some ("Trusted Advisor analysis failed: " ++ errMessage)
      data := none }

/-! ### Bedrock response handling (`bedrock.js`) -/

/-- Outcome of one `analyzeText` call together with the JSON extraction
attempted on its text (`bedrock.js` lines 885-893, 948-956, 1054-1062):
either the underlying invocation threw with a message, or it returned
success and the regex-plus-`JSON.parse` extraction yielded `some` parsed
value or `none` on parse failure. -/
inductive EngineCall (α : Type) where
  | threw (msg : String)
  | ok (parsed : Option α)
  deriving DecidableEq

/-- `BedrockService.analyzeUserAnswer` (`bedrock.js` lines 910-974): on a
successful call, the parsed JSON if extraction succeeds, else the fallback
`{ primaryAnswer: { questionKey, analysis: 'Answer recorded', confidence:
0.8 }, additionalAnswers: [], suggestions: [] }`; an invocation failure is
rethrown. -/
def analyzeUserAnswer (questionKey : String) (call : EngineCall UserAnswerAnalysis) :
    Except String UserAnswerAnalysis :=
  match call with
  | .threw msg => .error msg
  | .ok (some j) => .ok j
  | .ok none => .ok
      { primaryAnswer := some ⟨questionKey, "Answer recorded", 4/5⟩
        additionalAnswers := some []
        suggestions := some [] }

/-- `BedrockService.analyzeAWSDataForWellArchitected` (`bedrock.js` lines
847-908): parsed JSON on success, fallback `{ autoAnswers: [],
autoAnsweredQuestions: 0, ... }` on parse failure, rethrow on invocation
failure. -/
def analyzeAWSData (call : EngineCall AgentAnalysisResult) :
    Except String AgentAnalysisResult :=
  match call with
  | .threw msg => .error msg
  | .ok (some j) => .ok j
  | .ok none => .ok { autoAnswers := some [], autoAnsweredQuestions := some 0 }

/-- `BedrockService.generateWellArchitectedReport` (`bedrock.js` lines
976-1080): parsed JSON on success, the fallback report `{ overallScore: 3.0,
maturityLevel: 'Developing', ... }` on parse failure, rethrow on invocation
failure. -/
def generateWAReport (call : EngineCall Report) : Except String Report :=
  match call with
  | .threw msg => .error msg
  | .ok (some r) => .ok r
  | .ok none => .ok ⟨3, "Developing"⟩

/-! ### Unanswered-question queries and their orderings -/

/-- The `ORDER BY q.priority DESC, q.id ASC` relation of the service-level
`getUnansweredQuestions` query (`aws.js` line 493). -/
def priorityIdOrder (x y : Question × Pillar) : Prop :=
  y.1.priority < x.1.priority ∨ (x.1.priority = y.1.priority ∧ x.1.qid ≤ y.1.qid)

instance : DecidableRel priorityIdOrder := fun x y => by
  unfold priorityIdOrder; infer_instance

instance : IsTotal (Question × Pillar) priorityIdOrder :=
  ⟨by intro a b; unfold priorityIdOrder; omega⟩

instance : IsTrans (Question × Pillar) priorityIdOrder :=
  ⟨by intro a b c hab hbc; unfold priorityIdOrder at *; omega⟩

/-- The `ORDER BY q.priority DESC, p.name, q.category` relation of the HTTP
unanswered endpoint (`routes/index.js` line 422); this is also the order the
specification claims for `getUnansweredQuestions` (descending priority, then
pillar name, then category).  TEXT columns compare under SQLite's BINARY
collation, the lexicographic order on the underlying character sequence —
`String.lt` is defined as exactly this order on `.data`, which is compared
directly here. -/
def pillarCategoryOrder (x y : Question × Pillar) : Prop :=
  y.1.priority < x.1.priority ∨ (x.1.priority = y.1.priority ∧
    (x.2.name.data < y.2.name.data ∨
      (x.2.name.data = y.2.name.data ∧ x.1.category.data ≤ y.1.category.data)))

instance : DecidableRel pillarCategoryOrder := fun x y => by
  unfold pillarCategoryOrder; infer_instance

instance : IsTotal (Question × Pillar) pillarCategoryOrder := by
  constructor
  intro a b
  unfold pillarCategoryOrder
  rcases lt_trichotomy a.1.priority b.1.priority with h | h | h
  · exact Or.inr (Or.inl h)
  · rcases lt_trichotomy a.2.name.data b.2.name.data with hn | hn | hn
    · exact Or.inl (Or.inr ⟨h, Or.inl hn⟩)
    · rcases le_total a.1.category.data b.1.category.data with hc | hc
      · exact Or.inl (Or.inr ⟨h, Or.inr ⟨hn, hc⟩⟩)
      · exact Or.inr (Or.inr ⟨h.symm, Or.inr ⟨hn.symm, hc⟩⟩)
    · exact Or.inr (Or.inr ⟨h.symm, Or.inl hn⟩)
  · exact Or.inl (Or.inl h)

instance : IsTrans (Question × Pillar) pillarCategoryOrder := by
  constructor
  intro a b c hab hbc
  unfold pillarCategoryOrder at *
  rcases hab with h1 | ⟨e1, hab2⟩
  · rcases hbc with h2 | ⟨e2, _⟩
    · exact Or.inl (lt_trans h2 h1)
    · exact Or.inl (by rw [← e2]; exact h1)
  · rcases hbc with h2 | ⟨e2, hbc2⟩
    · exact Or.inl (by rw [e1]; exact h2)
    · refine Or.inr ⟨e1.trans e2, ?_⟩
      rcases hab2 with hn1 | ⟨en1, hc1⟩
      · rcases hbc2 with hn2 | ⟨en2, _⟩
        · exact Or.inl (lt_trans hn1 hn2)
        · exact Or.inl (by rw [← en2]; exact hn1)
      · rcases hbc2 with hn2 | ⟨en2, hc2⟩
        · exact Or.inl (by rw [en1]; exact hn2)
        · exact Or.inr ⟨en1.trans en2, le_trans hc1 hc2⟩

/-- The unordered result rows of the unanswered-question query: `FROM
questions q JOIN pillars p ON q.pillar_id = p.id LEFT JOIN answers a ON
q.id = a.question_id AND a.session_id = ? WHERE a.id IS NULL` (`aws.js`
lines 487-494; `p.id` is the pillar primary key, so the inner join matches
at most one pillar per question). -/
def unansweredRows (db : DB) (sess : String) : List (Question × Pillar) :=
  (db.questions.filterMap
    (fun q => (db.pillars.find? (fun p => p.pid == q.pillar_id)).map (fun p => (q, p)))).filter
    (fun qp => !(hasAnswer db sess qp.1.qid))

/-- The unanswered rows in the service's `ORDER BY q.priority DESC, q.id
ASC` order. -/
def sortedUnanswered (db : DB) (sess : String) : List (Question × Pillar) :=
  List.insertionSort priorityIdOrder (unansweredRows db sess)

/-- `WellArchitectedReviewService.getUnansweredQuestions` (`aws.js` lines
486-497): the unanswered questions with their pillar names, ordered by
descending priority then ascending question id. -/
def getUnansweredQuestions (db : DB) (sess : String) : List UnansweredQ :=
  (sortedUnanswered db sess).map
    (fun qp => ⟨qp.1.qid, qp.1.question_key, qp.1.question_text, qp.1.category, qp.2.name⟩)

/-- A row of the HTTP `GET /session/:sessionId/unanswered` result set
(`routes/index.js` lines 410-423). -/
structure RouteQ where
  question_key : String
  question_text : String
  category : String
  pillar_name : String
  pillar_description : String
  priority : Int
  deriving DecidableEq

/-- The HTTP unanswered endpoint (`routes/index.js` lines 406-433): same
join and filter, but `ORDER BY q.priority DESC, p.name, q.category`. -/
def getUnansweredRoute (db : DB) (sess : String) : List RouteQ :=
  (List.insertionSort pillarCategoryOrder (unansweredRows db sess)).map
    (fun qp => ⟨qp.1.question_key, qp.1.question_text, qp.1.category,
                qp.2.name, qp.2.description, qp.1.priority⟩)

/-- Refinement reference for C9, following the specification's words: the
unanswered questions "ordered by descending priority, then by pillar name,
then by category", projected to the service's result columns.  Compared
against `getUnansweredQuestions`, which the source orders by question id
instead. -/
def specGetUnansweredQuestions (db : DB) (sess : String) : List UnansweredQ :=
  (List.insertionSort pillarCategoryOrder (unansweredRows db sess)).map
    (fun qp => ⟨qp.1.qid, qp.1.question_key, qp.1.question_text, qp.1.category, qp.2.name⟩)

/-! ### Review Session Orchestrator (`WellArchitectedReviewService`) -/

/-- `updateProgress` (`aws.js` lines 370-396) attempts `UPDATE
analysis_sessions SET progress_data = ? WHERE id = ?`.  The
`analysis_sessions` table created by `init.js` (lines 133-143) declares no
`progress_data` column, so SQLite rejects the statement on every invocation
("no such column"), independently of the bound values; the method's local
try/catch swallows the failure and only logs it.  The statement therefore
never modifies the store: the faithful embedding is the identity. -/
def updateProgress (db : DB) (_sid : String) (_step : Nat) (_msg : String)
    (_pct : Option Nat) : DB :=
  db

/-- The auto-answer loop of `storeInitialAnalysis` (`aws.js` lines 468-483):
for each auto-answer whose question key resolves, `INSERT OR REPLACE` an
answer with source `agent`.  In execution the loop is unreachable — the
insert above it (`aws.js` line 463) always throws first, see
`storeInitialAnalysis` — the translation is kept for reference. -/
def storeAutoAnswers (db : DB) (sid : String) (l : List AutoAnswer) : DB :=
  l.foldl
    (fun d ans =>
      match findQuestionByKey d ans.questionKey with
      | some q => answersInsertOrReplace d q.qid sid ans.answer ans.confidence "agent"
      | none => d) db

/-- `storeInitialAnalysis` (`aws.js` lines 460-484): its first statement
(line 463) is `INSERT OR REPLACE INTO analysis_sessions (id,
analysis_status, bedrock_analysis, progress_data, created_at) VALUES (...)`.
The column list names `progress_data`, which the `analysis_sessions` table
created by `init.js` (lines 133-143) does not declare, so SQLite rejects the
statement ("no such column") regardless of the bound values.  The method has
no local catch, so every invocation throws before writing anything: the
intended `in_progress` session row is never stored and the auto-answer loop
below the insert (lines 468-483, `storeAutoAnswers`) never runs. -/
def storeInitialAnalysis (db : DB) (_sid : String) (_awsData : Option EnvData)
    (_agent : AgentAnalysisResult) : DB × Except String Unit :=
  (db, .error "SQLITE_ERROR: no such column: progress_data")

/-- Return value `startReview` would produce on success (`aws.js` lines
443-452); unreachable in execution, since `storeInitialAnalysis` always
throws first.  The stored AWS/agent payloads are echoed in the session blob
and omitted here. -/
structure StartResult where
  sessionId : String
  nextQuestion : Option UnansweredQ
  totalQuestions : Nat
  answeredQuestions : Nat
  remainingQuestions : Nat
  deriving DecidableEq

/-- `startReview` (`aws.js` lines 398-458), given the outcome of the
comprehensive AWS analysis call and of the Bedrock auto-answer call.  Steps:
progress 1 (10%) and 2 (30%) (no-ops, see `updateProgress`); throw if the
AWS analysis was unsuccessful; progress 3 (60%) and the Bedrock analysis
(rethrow on invocation failure); progress 4 (80%) and
`storeInitialAnalysis` — which always throws, so the remainder of the method
(the unanswered-question query, progress 5/6, the final `UPDATE ... SET
analysis_status = 'completed'` at lines 429-439 and the success return) is
dead code; it is translated below for reference but unreachable through the
propagated `storeInitialAnalysis` error.  Thrown errors propagate to the
caller; state changes already applied remain (the store is external, nothing
is rolled back). -/
def startReview (db : DB) (sid : String) (aws : CompCall String)
    (agentCall : EngineCall AgentAnalysisResult) : DB × Except String StartResult :=
  let db1 := updateProgress db sid 1 "Initializing Well-Architected Review..." (some 10)
  let db2 := updateProgress db1 sid 2
    "Analyzing AWS environment (Cost, IAM, Compute, Security)..." (some 30)
  if aws.success then
    let db3 := updateProgress db2 sid 3 "AI analyzing AWS data with Bedrock Agent..." (some 60)
    match analyzeAWSData agentCall with
    | .error e => (db3, .error e)
    | .ok agent =>
      let db4 := updateProgress db3 sid 4
        "Storing analysis results and auto-answered questions..." (some 80)
      match storeInitialAnalysis db4 sid aws.data agent with
      | (db5, .error e) => (db5, .error e)
      | (db5, .ok _) =>
        let db6 := updateProgress db5 sid 5 "Preparing interactive questions..." (some 90)
        let unanswered := getUnansweredQuestions db6 sid
        let db7 := updateProgress db6 sid 6
          "Review ready! Starting interactive questions..." (some 100)
        let db8 := sessionsUpdate db7 sid (fun s =>
          { s with analysis_status := "completed",
                   bedrock_analysis := some (.final aws.data agent
                     (agent.autoAnsweredQuestions.getD 0) (getTotalQuestions db7)
                     unanswered.length unanswered.head?) })
        (db8, .ok { sessionId := sid, nextQuestion := unanswered.head?,
                    totalQuestions := getTotalQuestions db8,
                    answeredQuestions := agent.autoAnsweredQuestions.getD 0,
                    remainingQuestions := unanswered.length })
  else
    (db2, .error ("AWS analysis failed: " ++ aws.error.getD "undefined"))

/-- `generateFinalReport` (`aws.js` lines 572-612): reads the session row
(when it is absent, `session.bedrock_analysis` throws before the engine is
invoked), invokes `generateWellArchitectedReport` (counted in
`reportCalls`), and on success updates the session to `completed` with the
report stored in `recommendations`.  The answers query feeding the engine
prompt is read-only and its content reaches only the opaque prompt. -/
def generateFinalReport (db : DB) (sid : String) (reportCall : EngineCall Report) :
    DB × Except String Report :=
  match getSession db sid with
  | none => (db, .error "Cannot read properties of undefined (reading bedrock_analysis)")
  | some _ =>
    let db1 := { db with reportCalls := db.reportCalls + 1 }
    match generateWAReport reportCall with
    | .error e => (db1, .error e)
    | .ok report =>
      (sessionsUpdate db1 sid
         (fun s => { s with analysis_status := "completed", recommendations := some report }),
       .ok report)

/-- The derived-answer loop of `submitUserAnswer` (`aws.js` lines 528-544):
for each additional answer whose question key resolves, `INSERT OR REPLACE`
an answer with source `agent_derived`.  There is no check whether the
target question already has an answer for this session. -/
def storeDerivedAnswers (db : DB) (sessionId : String) (l : List AdditionalAnswer) : DB :=
  l.foldl
    (fun d aa =>
      match findQuestionByKey d aa.questionKey with
      | some rq => answersInsertOrReplace d rq.qid sessionId aa.answer aa.confidence "agent_derived"
      | none => d) db

/-- Return value of a successful `submitUserAnswer` (`aws.js` lines
557-564). -/
structure SubmitResult where
  additionalAnswersCount : Nat
  nextQuestion : Option UnansweredQ
  totalQuestions : Nat
  answeredQuestions : Nat
  isComplete : Bool
  deriving DecidableEq

/-- Tail of `submitUserAnswer` after the answers are stored (`aws.js` lines
546-564): recompute the unanswered list; when it is empty, run
`generateFinalReport` (a throw propagates, the state changes already applied
remain); then build the summary from the live store. -/
def submitFinish (db2 : DB) (sessionId : String) (count : Nat)
    (reportCall : EngineCall Report) : DB × Except String SubmitResult :=
  if (getUnansweredQuestions db2 sessionId).head?.isNone then
    match generateFinalReport db2 sessionId reportCall with
    | (d3, .error e) => (d3, .error e)
    | (d3, .ok _) =>
      (d3, .ok { additionalAnswersCount := count
                 nextQuestion := (getUnansweredQuestions db2 sessionId).head?
                 totalQuestions := getTotalQuestions d3
                 answeredQuestions := getTotalQuestions d3 - (getUnansweredQuestions db2 sessionId).length
                 isComplete := (getUnansweredQuestions db2 sessionId).head?.isNone })
  else
    (db2, .ok { additionalAnswersCount := count
                nextQuestion := (getUnansweredQuestions db2 sessionId).head?
                totalQuestions := getTotalQuestions db2
                answeredQuestions := getTotalQuestions db2 - (getUnansweredQuestions db2 sessionId).length
                isComplete := (getUnansweredQuestions db2 sessionId).head?.isNone })

/-- `submitUserAnswer` (`aws.js` lines 504-570), given the outcomes of the
Bedrock derivation call and of the report call.  Flow: look up the question
by key (throw when unknown); run `analyzeUserAnswer` (before anything is
stored; a rethrow aborts with no state change); `INSERT OR REPLACE` the
primary answer with source `user` and confidence 0.9; for each derived
answer whose question key resolves, `INSERT OR REPLACE` an answer with
source `agent_derived` — with no check whether the question already has an
answer in this session; then `submitFinish`. -/
def submitUserAnswer (db : DB) (sessionId questionKey userAnswer : String)
    (engineCall : EngineCall UserAnswerAnalysis) (reportCall : EngineCall Report) :
    DB × Except String SubmitResult :=
  match findQuestionByKey db questionKey with
  | none => (db, .error ("Question " ++ questionKey ++ " not found"))
  | some question =>
    match analyzeUserAnswer questionKey engineCall with
    | .error e => (db, .error e)
    | .ok agentAnalysis =>
      submitFinish
        (storeDerivedAnswers
          (answersInsertOrReplace db question.qid sessionId userAnswer (9/10) "user")
          sessionId (agentAnalysis.additionalAnswers.getD []))
        sessionId (agentAnalysis.additionalAnswers.getD []).length reportCall

/-- `Math.round(100 * c / t)` on non-negative operands, `none` standing for
the NaN produced when `t = 0`. -/
def jsRoundPct (c t : Nat) : Option Nat :=
  if t == 0 then none else some ((200 * c + t) / (2 * t))

/-- `SELECT COUNT(*) FROM answers a JOIN questions q ON a.question_id = q.id
WHERE a.session_id = ?` (`aws.js` lines 626-631): counts answer rows (not
distinct questions) whose question exists. -/
def answeredCount (db : DB) (sid : String) : Nat :=
  (db.answers.filter
    (fun a => a.session_id == sid && db.questions.any (fun q => q.qid == a.question_id))).length

/-- The status descriptor returned by `getReviewStatus` (`aws.js` lines
635-644). -/
structure StatusDescriptor where
  sessionId : String
  status : String
  totalQuestions : Nat
  answeredQuestions : Nat
  remainingQuestions : Nat
  nextQuestion : Option UnansweredQ
  isComplete : Bool
  progress : Option Nat
  deriving DecidableEq

/-- `getReviewStatus` (`aws.js` lines 614-650): throws when the session is
unknown; otherwise reports counts, the next unanswered question, and
`isComplete := analysis_status === 'completed'`. -/
def getReviewStatus (db : DB) (sid : String) : Except String StatusDescriptor :=
  match getSession db sid with
  | none => .error "Session not found"
  | some session =>
    let total := getTotalQuestions db
    let answered := answeredCount db sid
    let unanswered := getUnansweredQuestions db sid
    .ok { sessionId := sid
          status := session.analysis_status
          totalQuestions := total
          answeredQuestions := answered
          remainingQuestions := unanswered.length
          nextQuestion := unanswered.head?
          isComplete := session.analysis_status == "completed"
          progress := jsRoundPct answered total }

/-- The HTTP response of `POST /well-architected/start` (`analysis.js` lines
1543-1556). -/
structure RouteResponse where
  httpStatus : Nat
  success : Bool
  sessionId : Option String
  status : Option String
  error : Option String
  deriving DecidableEq

/-- The `POST /start` route (`analysis.js` lines 1516-1557): inserts a
session row with status `processing` and responds immediately; the detached
`startReview` task runs afterwards, and its `.catch` updates the session to
`failed` (setting only `analysis_status` and `updated_at`).  The response is
computed before the background task resolves, so it is the same whether the
task later fails or not; the returned state is the state after the
background task has settled.  The `500` branch covers the (practically
unreachable) primary-key collision of the fresh uuid. -/
def startRoute (db : DB) (sid : String) (aws : CompCall String)
    (agentCall : EngineCall AgentAnalysisResult) : DB × RouteResponse :=
  match getSession db sid with
  | some _ => (db, ⟨500, false, none, none, some "UNIQUE constraint failed: analysis_sessions.id"⟩)
  | none =>
    (match (startReview (sessionsInsert db ⟨sid, none, "processing", none, none⟩)
        sid aws agentCall).2 with
     | .error _ =>
        sessionsUpdate
          (startReview (sessionsInsert db ⟨sid, none, "processing", none, none⟩)
            sid aws agentCall).1
          sid (fun s => { s with analysis_status := "failed" })
     | .ok _ =>
        (startReview (sessionsInsert db ⟨sid, none, "processing", none, none⟩)
          sid aws agentCall).1,
     ⟨200, true, some sid, some "processing", none⟩)

/-- The stored status of a session, the observable polled by clients. -/
def sessionStatus (db : DB) (sid : String) : Option String :=
  (getSession db sid).map (·.analysis_status)

/-- Boolean view of an `Except` outcome (`true` when no error was thrown). -/
def exceptIsOk {ε α : Type} : Except ε α → Bool
  | .ok _ => true
  | .error _ => false

/-! ### Claim-side reference definitions -/

/-- The specification's completion predicate (C5): every known question has
exactly one answer scoped to the session. -/
def fullCoverage (db : DB) (sid : String) : Bool :=
  db.questions.all (fun q => (answersFor db q.qid sid).length == 1)

/-- The `serviceStatus` of a comprehensive-analysis result (empty when the
call carried no data). -/
def compStatus {δ : Type} (cc : CompCall δ) : ServiceStatus :=
  ((cc.data.map (fun c => c.serviceStatus))).getD ⟨[], [], 0, 0⟩

/-- How the comprehensive join is required to capture one branch's outcome
individually: a successful branch appears in neither issue list; a failed
branch contributes exactly its own entry — a warning when its error type is
`SUBSCRIPTION_REQUIRED`, an error otherwise. -/
def branchCaptured {δ : Type} (n : String) (r : ServiceResult δ) (st : ServiceStatus) : Prop :=
  (r.success = true →
    n ∉ st.errors.map (fun i => i.service) ∧ n ∉ st.warnings.map (fun i => i.service)) ∧
  (r.success = false → r.errorType = some "SUBSCRIPTION_REQUIRED" →
    (⟨n, jsOrStr r.userMessage r.error, "warning"⟩ : ServiceIssue) ∈ st.warnings ∧
      n ∉ st.errors.map (fun i => i.service)) ∧
  (r.success = false → r.errorType ≠ some "SUBSCRIPTION_REQUIRED" →
    (⟨n, jsOrStr r.userMessage r.error, "error"⟩ : ServiceIssue) ∈ st.errors ∧
      n ∉ st.warnings.map (fun i => i.service))

/-- The entry a failed non-subscription service contributes to
`serviceErrors` (`routes/index.js` lines 1304-1310), as an optional value. -/
def errEntry {δ : Type} (nr : String × ServiceResult δ) : Option ServiceIssue :=
  if nr.2.success = false ∧ ¬ nr.2.errorType = some "SUBSCRIPTION_REQUIRED" then
    some ⟨nr.1, jsOrStr nr.2.userMessage nr.2.error, "error"⟩
  else none

/-- The entry a subscription-required failure contributes to
`serviceWarnings` (`routes/index.js` lines 1298-1303), as an optional
value. -/
def warnEntry {δ : Type} (nr : String × ServiceResult δ) : Option ServiceIssue :=
  if nr.2.success = false ∧ nr.2.errorType = some "SUBSCRIPTION_REQUIRED" then
    some ⟨nr.1, jsOrStr nr.2.userMessage nr.2.error, "warning"⟩
  else none

/-! ### Concrete fixtures (rows as seeded by `insertDefaultQuestions`) -/

/-- Pillar row 1, `Operational Excellence`. -/
def pOps : Pillar :=
  ⟨1, "Operational Excellence", "The ability to support development and run workloads effectively"⟩

/-- Pillar row 2, `Security`. -/
def pSec : Pillar :=
  ⟨2, "Security", "The ability to protect data, systems, and assets"⟩

/-- Pillar row 5, `Cost Optimization`. -/
def pCost : Pillar :=
  ⟨5, "Cost Optimization", "The ability to run systems to deliver business value at the lowest price point"⟩

/-- Question `OPS01` (first seeded row). -/
def qOPS01 : Question :=
  ⟨1, 1, "OPS01", "How do you determine what your priorities are?", "Organization", 1⟩

/-- Question `SEC01` (sixth seeded row). -/
def qSEC01 : Question :=
  ⟨6, 2, "SEC01", "How do you securely operate your workload?", "Security Foundations", 1⟩

/-- Question `COST01` (twenty-first seeded row). -/
def qCOST01 : Question :=
  ⟨21, 5, "COST01", "How do you implement cloud financial management?", "Practice Cloud Financial Management", 1⟩

/-- A session row as the `POST /start` route creates it, with the given
status. -/
def mkSession (sid status : String) : SessionRow :=
  ⟨sid, none, status, none, none⟩

/-- An environment snapshot with every branch collected empty. -/
def envStub : EnvData :=
  ⟨none, none, none, none, none, none, ⟨[], [], 6, 6⟩⟩

/-- A successful comprehensive-analysis call. -/
def awsOk : CompCall String := ⟨true, none, some envStub⟩

/-- Store with one question and one in-progress session, no answers yet. -/
def oneQDb : DB := ⟨[pOps], [qOPS01], [], [mkSession "s" "in_progress"], 1, 0⟩

/-- Store with two questions where `SEC01` already has a user answer in
session `s`. -/
def sec01AnsweredDb : DB :=
  ⟨[pOps, pSec], [qOPS01, qSEC01],
   [⟨1, 6, "s", "We rotate credentials and restrict access by role", 9/10, "user"⟩],
   [mkSession "s" "in_progress"], 2, 0⟩

/-- Store with one question, no answers, and a session already marked
`completed` (the state a successful `startReview` run leaves behind). -/
def completedNoAnswersDb : DB := ⟨[pOps], [qOPS01], [], [mkSession "s" "completed"], 1, 0⟩

/-- Store with one question and no session row. -/
def noSessionDb : DB := ⟨[pOps], [qOPS01], [], [], 1, 0⟩

/-- Store with two questions and no session row. -/
def twoQNoSessionDb : DB := ⟨[pOps, pSec], [qOPS01, qSEC01], [], [], 1, 0⟩

/-- A trusted-advisor branch that fulfilled with a subscription-required
failure (payloads instantiated at `Nat`). -/
def taSubFail : SettledResult Nat :=
  .fulfilled ⟨false, some "SUBSCRIPTION_REQUIRED",
    some "Premium Support subscription required for Trusted Advisor",
    some "Trusted Advisor requires AWS Business or Enterprise Support plan. Analysis will continue with other AWS services.",
    some 7⟩

/-- A successful sub-collector branch carrying payload `n`. -/
def svcOkNat (n : Nat) : SettledResult Nat :=
  .fulfilled ⟨true, none, none, none, some n⟩

/-- Store with questions from two pillars whose seeding order (`OPS01` id 1
before `COST01` id 21) is the reverse of the pillar-name order. -/
def twoPillarDb : DB := ⟨[pOps, pCost], [qOPS01, qCOST01], [], [], 1, 0⟩

/-! ### Frame lemmas for the store operations -/

theorem answersInsertOrReplace_answers (db : DB) (qid : Nat) (s t : String) (c : Rat) (src : String) :
    (answersInsertOrReplace db qid s t c src).answers
      = db.answers ++ [⟨db.nextAnswerId, qid, s, t, c, src⟩] := rfl

theorem findQuestionByKey_congr {d d' : DB} (h : d'.questions = d.questions) (k : String) :
    findQuestionByKey d' k = findQuestionByKey d k := by
  unfold findQuestionByKey; rw [h]

theorem findQuestionByKey_mem {d : DB} {k : String} {q : Question}
    (h : findQuestionByKey d k = some q) : q ∈ d.questions :=
  List.mem_of_find?_eq_some h

theorem storeDerivedAnswers_nil (d : DB) (s : String) : storeDerivedAnswers d s [] = d := rfl

theorem storeDerivedAnswers_cons (d : DB) (s : String) (aa : AdditionalAnswer)
    (l : List AdditionalAnswer) :
    storeDerivedAnswers d s (aa :: l) =
      storeDerivedAnswers
        (match findQuestionByKey d aa.questionKey with
         | some rq => answersInsertOrReplace d rq.qid s aa.answer aa.confidence "agent_derived"
         | none => d) s l := rfl

theorem storeDerivedAnswers_frame (l : List AdditionalAnswer) : ∀ (d : DB) (s : String),
    (storeDerivedAnswers d s l).questions = d.questions ∧
    (storeDerivedAnswers d s l).pillars = d.pillars ∧
    (storeDerivedAnswers d s l).sessions = d.sessions ∧
    (storeDerivedAnswers d s l).reportCalls = d.reportCalls := by
  induction l with
  | nil => exact fun d s => ⟨rfl, rfl, rfl, rfl⟩
  | cons aa t ih =>
    intro d s
    rw [storeDerivedAnswers_cons]
    cases h : findQuestionByKey d aa.questionKey with
    | none => exact ih d s
    | some rq => exact ih _ s

theorem storeDerivedAnswers_mem (l : List AdditionalAnswer) : ∀ (d : DB) (s : String)
    (a : Answer), a ∈ d.answers → a ∈ (storeDerivedAnswers d s l).answers := by
  induction l with
  | nil => exact fun d s a ha => ha
  | cons aa t ih =>
    intro d s a ha
    rw [storeDerivedAnswers_cons]
    cases h : findQuestionByKey d aa.questionKey with
    | none => exact ih d s a ha
    | some rq => exact ih _ s a (List.mem_append_left _ ha)

theorem storeDerivedAnswers_writes (l : List AdditionalAnswer) : ∀ (d : DB) (s : String)
    (aa : AdditionalAnswer) (rq : Question), aa ∈ l →
    findQuestionByKey d aa.questionKey = some rq →
    ∃ a ∈ (storeDerivedAnswers d s l).answers,
      a.question_id = rq.qid ∧ a.session_id = s ∧ a.answer_text = aa.answer ∧
      a.confidence_score = aa.confidence ∧ a.source = "agent_derived" := by
  induction l with
  | nil => intro d s aa rq h; cases h
  | cons b t ih =>
    intro d s aa rq hmem hf
    rw [storeDerivedAnswers_cons]
    rcases List.mem_cons.mp hmem with rfl | hmem'
    · rw [hf]
      refine ⟨⟨d.nextAnswerId, rq.qid, s, aa.answer, aa.confidence, "agent_derived"⟩,
        ?_, rfl, rfl, rfl, rfl, rfl⟩
      exact storeDerivedAnswers_mem t _ s _ (List.mem_append_right _ (List.mem_singleton_self _))
    · cases h2 : findQuestionByKey d b.questionKey with
      | none => exact ih d s aa rq hmem' hf
      | some rq2 => exact ih _ s aa rq hmem' hf

theorem storeDerivedAnswers_refs (l : List AdditionalAnswer) :
    ∀ (d : DB) (s : String) (qs : List Question), d.questions = qs →
    (∀ a ∈ d.answers, ∃ q ∈ qs, q.qid = a.question_id) →
    ∀ a ∈ (storeDerivedAnswers d s l).answers, ∃ q ∈ qs, q.qid = a.question_id := by
  induction l with
  | nil => exact fun d s qs hqs h => h
  | cons b t ih =>
    intro d s qs hqs hinv
    rw [storeDerivedAnswers_cons]
    cases h2 : findQuestionByKey d b.questionKey with
    | none => exact ih d s qs hqs hinv
    | some rq =>
      apply ih (answersInsertOrReplace d rq.qid s b.answer b.confidence "agent_derived") s qs hqs
      intro a ha
      rcases List.mem_append.mp ha with ha' | ha'
      · exact hinv a ha'
      · rcases List.mem_singleton.mp ha' with rfl
        exact ⟨rq, hqs ▸ findQuestionByKey_mem h2, rfl⟩

theorem storeAutoAnswers_nil (d : DB) (s : String) : storeAutoAnswers d s [] = d := rfl

theorem storeAutoAnswers_cons (d : DB) (s : String) (ans : AutoAnswer) (l : List AutoAnswer) :
    storeAutoAnswers d s (ans :: l) =
      storeAutoAnswers
        (match findQuestionByKey d ans.questionKey with
         | some q => answersInsertOrReplace d q.qid s ans.answer ans.confidence "agent"
         | none => d) s l := rfl

theorem storeAutoAnswers_refs (l : List AutoAnswer) :
    ∀ (d : DB) (s : String) (qs : List Question), d.questions = qs →
    (∀ a ∈ d.answers, ∃ q ∈ qs, q.qid = a.question_id) →
    ∀ a ∈ (storeAutoAnswers d s l).answers, ∃ q ∈ qs, q.qid = a.question_id := by
  induction l with
  | nil => exact fun d s qs hqs h => h
  | cons b t ih =>
    intro d s qs hqs hinv
    rw [storeAutoAnswers_cons]
    cases h2 : findQuestionByKey d b.questionKey with
    | none => exact ih d s qs hqs hinv
    | some rq =>
      apply ih (answersInsertOrReplace d rq.qid s b.answer b.confidence "agent") s qs hqs
      intro a ha
      rcases List.mem_append.mp ha with ha' | ha'
      · exact hinv a ha'
      · rcases List.mem_singleton.mp ha' with rfl
        exact ⟨rq, hqs ▸ findQuestionByKey_mem h2, rfl⟩

theorem generateFinalReport_answers (d : DB) (s : String) (rc : EngineCall Report) :
    (generateFinalReport d s rc).1.answers = d.answers := by
  unfold generateFinalReport
  cases getSession d s with
  | none => rfl
  | some _ =>
    cases rc with
    | threw m => rfl
    | ok p => cases p with
      | none => rfl
      | some r => rfl

theorem generateFinalReport_questions (d : DB) (s : String) (rc : EngineCall Report) :
    (generateFinalReport d s rc).1.questions = d.questions := by
  unfold generateFinalReport
  cases getSession d s with
  | none => rfl
  | some _ =>
    cases rc with
    | threw m => rfl
    | ok p => cases p with
      | none => rfl
      | some r => rfl

theorem generateFinalReport_pillars (d : DB) (s : String) (rc : EngineCall Report) :
    (generateFinalReport d s rc).1.pillars = d.pillars := by
  unfold generateFinalReport
  cases getSession d s with
  | none => rfl
  | some _ =>
    cases rc with
    | threw m => rfl
    | ok p => cases p with
      | none => rfl
      | some r => rfl

theorem generateFinalReport_reportCalls_of_ok (d : DB) (s : String) (rc : EngineCall Report)
    (r : Report) (h : (generateFinalReport d s rc).2 = .ok r) :
    (generateFinalReport d s rc).1.reportCalls = d.reportCalls + 1 := by
  unfold generateFinalReport at h ⊢
  cases hs : getSession d s with
  | none => rw [hs] at h; exact Except.noConfusion h
  | some _ =>
    rw [hs] at h
    cases rc with
    | threw m => exact Except.noConfusion h
    | ok p => cases p with
      | none => rfl
      | some r0 => rfl

theorem getUnansweredQuestions_congr {d d' : DB} (s : String)
    (hq : d'.questions = d.questions) (hp : d'.pillars = d.pillars)
    (ha : d'.answers = d.answers) :
    getUnansweredQuestions d' s = getUnansweredQuestions d s := by
  unfold getUnansweredQuestions sortedUnanswered unansweredRows hasAnswer
  rw [hq, hp, ha]

theorem hasAnswer_congr {d d' : DB} (s : String) (qid : Nat)
    (ha : d'.answers = d.answers) : hasAnswer d' s qid = hasAnswer d s qid := by
  unfold hasAnswer
  rw [ha]

theorem getUnansweredQuestions_eq_nil_iff (d : DB) (s : String) :
    getUnansweredQuestions d s = [] ↔
      ∀ q ∈ d.questions, ∀ p,
        d.pillars.find? (fun pp => pp.pid == q.pillar_id) = some p →
        hasAnswer d s q.qid = true := by
  unfold getUnansweredQuestions sortedUnanswered
  constructor
  · intro h q hq p hp
    have hsort : List.insertionSort priorityIdOrder (unansweredRows d s) = [] :=
      List.map_eq_nil_iff.mp h
    have hperm := List.perm_insertionSort priorityIdOrder (unansweredRows d s)
    rw [hsort] at hperm
    have hrows : unansweredRows d s = [] := hperm.symm.eq_nil
    unfold unansweredRows at hrows
    rw [List.filter_eq_nil_iff] at hrows
    have hmem : (q, p) ∈ d.questions.filterMap
        (fun q => (d.pillars.find? (fun pp => pp.pid == q.pillar_id)).map (fun p => (q, p))) :=
      List.mem_filterMap.mpr ⟨q, hq, by rw [hp]; rfl⟩
    have hno := hrows _ hmem
    simpa using hno
  · intro h
    have hrows : unansweredRows d s = [] := by
      unfold unansweredRows
      rw [List.filter_eq_nil_iff]
      intro qp hqp
      rcases List.mem_filterMap.mp hqp with ⟨q, hq, hmap⟩
      rcases Option.map_eq_some'.mp hmap with ⟨p, hfind, hqp_eq⟩
      cases hqp_eq
      simpa using h q hq p hfind
    rw [hrows]
    rfl

theorem classifyIssues_acc {δ : Type} (es : List (String × ServiceResult δ)) :
    ∀ acc : List ServiceIssue × List ServiceIssue,
      es.foldl (fun acc nr =>
        if nr.2.success then acc
        else if nr.2.errorType == some "SUBSCRIPTION_REQUIRED" then
          (acc.1, acc.2 ++ [⟨nr.1, jsOrStr nr.2.userMessage nr.2.error, "warning"⟩])
        else
          (acc.1 ++ [⟨nr.1, jsOrStr nr.2.userMessage nr.2.error, "error"⟩], acc.2)) acc
      = (acc.1 ++ es.filterMap errEntry, acc.2 ++ es.filterMap warnEntry) := by
  induction es with
  | nil => intro acc; simp
  | cons nr t ih =>
    intro acc
    rw [List.foldl_cons, ih]
    by_cases hs : nr.2.success = true
    · simp [hs, errEntry, warnEntry, List.filterMap_cons]
    · have hs2 : nr.2.success = false := by revert hs; cases nr.2.success <;> simp
      by_cases hsub : nr.2.errorType = some "SUBSCRIPTION_REQUIRED"
      · simp [hs2, hsub, errEntry, warnEntry, List.filterMap_cons]
      · simp [hs2, hsub, errEntry, warnEntry, List.filterMap_cons]

theorem classifyIssues_eq {δ : Type} (es : List (String × ServiceResult δ)) :
    classifyIssues es = (es.filterMap errEntry, es.filterMap warnEntry) := by
  unfold classifyIssues
  simpa using classifyIssues_acc es ([], [])

theorem classifyIssues_length {δ : Type} (es : List (String × ServiceResult δ)) :
    (es.filter (fun nr => nr.2.success)).length
      + ((es.filterMap errEntry).length + (es.filterMap warnEntry).length) = es.length := by
  induction es with
  | nil => rfl
  | cons nr t ih =>
    by_cases hs : nr.2.success = true
    · simp only [List.filter_cons, List.filterMap_cons, hs, if_true]
      simp [errEntry, warnEntry, hs]
      omega
    · have hs2 : nr.2.success = false := by revert hs; cases nr.2.success <;> simp
      by_cases hsub : nr.2.errorType = some "SUBSCRIPTION_REQUIRED"
      · simp [List.filter_cons, List.filterMap_cons, hs2, hsub, errEntry, warnEntry]
        omega
      · simp [List.filter_cons, List.filterMap_cons, hs2, hsub, errEntry, warnEntry]
        omega

theorem entries_key_unique {δ : Type} : ∀ (es : List (String × ServiceResult δ)),
    (es.map Prod.fst).Nodup → ∀ {n : String} {r1 r2 : ServiceResult δ},
    (n, r1) ∈ es → (n, r2) ∈ es → r1 = r2 := by
  intro es
  induction es with
  | nil => intro _ n r1 r2 h; cases h
  | cons e t ih =>
    intro hnd n r1 r2 h1 h2
    have hnd2 : e.1 ∉ t.map Prod.fst ∧ (t.map Prod.fst).Nodup :=
      List.nodup_cons.mp (by simpa using hnd)
    rcases List.mem_cons.mp h1 with he1 | h1mem
    · rcases List.mem_cons.mp h2 with he2 | h2mem
      · exact congrArg Prod.snd (he1.trans he2.symm)
      · exfalso
        apply hnd2.1
        have hfst : e.1 = n := by rw [← he1]
        rw [hfst]
        exact List.mem_map_of_mem Prod.fst h2mem
    · rcases List.mem_cons.mp h2 with he2 | h2mem
      · exfalso
        apply hnd2.1
        have hfst : e.1 = n := by rw [← he2]
        rw [hfst]
        exact List.mem_map_of_mem Prod.fst h1mem
      · exact ih hnd2.2 h1mem h2mem

theorem not_mem_err_of {δ : Type} (es : List (String × ServiceResult δ))
    (hnd : (es.map Prod.fst).Nodup) (n : String) (r : ServiceResult δ)
    (hm : (n, r) ∈ es)
    (hcond : ¬ (r.success = false ∧ ¬ r.errorType = some "SUBSCRIPTION_REQUIRED")) :
    n ∉ (es.filterMap errEntry).map (fun i => i.service) := by
  intro hmem
  rcases List.mem_map.mp hmem with ⟨i, hi, hserv⟩
  rcases List.mem_filterMap.mp hi with ⟨⟨n1, r1⟩, hnr, hentry⟩
  unfold errEntry at hentry
  split at hentry
  next hc =>
    cases hentry
    have hn1 : n1 = n := hserv
    subst hn1
    have hr1 : r1 = r := entries_key_unique es hnd hnr hm
    subst hr1
    exact hcond hc
  next hc => exact Option.noConfusion hentry

theorem not_mem_warn_of {δ : Type} (es : List (String × ServiceResult δ))
    (hnd : (es.map Prod.fst).Nodup) (n : String) (r : ServiceResult δ)
    (hm : (n, r) ∈ es)
    (hcond : ¬ (r.success = false ∧ r.errorType = some "SUBSCRIPTION_REQUIRED")) :
    n ∉ (es.filterMap warnEntry).map (fun i => i.service) := by
  intro hmem
  rcases List.mem_map.mp hmem with ⟨i, hi, hserv⟩
  rcases List.mem_filterMap.mp hi with ⟨⟨n1, r1⟩, hnr, hentry⟩
  unfold warnEntry at hentry
  split at hentry
  next hc =>
    cases hentry
    have hn1 : n1 = n := hserv
    subst hn1
    have hr1 : r1 = r := entries_key_unique es hnd hnr hm
    subst hr1
    exact hcond hc
  next hc => exact Option.noConfusion hentry

theorem classifyIssues_captures {δ : Type} (es : List (String × ServiceResult δ))
    (hnd : (es.map Prod.fst).Nodup) (n : String) (r : ServiceResult δ)
    (hm : (n, r) ∈ es) (st : ServiceStatus)
    (he : st.errors = es.filterMap errEntry) (hw : st.warnings = es.filterMap warnEntry) :
    branchCaptured n r st := by
  refine ⟨?_, ?_, ?_⟩
  · intro hs
    constructor
    · rw [he]
      exact not_mem_err_of es hnd n r hm (by simp [hs])
    · rw [hw]
      exact not_mem_warn_of es hnd n r hm (by simp [hs])
  · intro hs hsub
    constructor
    · rw [hw]
      apply List.mem_filterMap.mpr
      refine ⟨(n, r), hm, ?_⟩
      unfold warnEntry
      rw [if_pos ⟨hs, hsub⟩]
    · rw [he]
      exact not_mem_err_of es hnd n r hm (by simp [hsub])
  · intro hs hsub
    constructor
    · rw [he]
      apply List.mem_filterMap.mpr
      refine ⟨(n, r), hm, ?_⟩
      unfold errEntry
      rw [if_pos ⟨hs, hsub⟩]
    · rw [hw]
      exact not_mem_warn_of es hnd n r hm (by simp [hsub])

theorem getSession_sessionsUpdate (d : DB) (sid : String) (f : SessionRow → SessionRow)
    (hf : ∀ r, (f r).sid = r.sid) (s2 : String) :
    getSession (sessionsUpdate d sid f) s2
      = (getSession d s2).map (fun r => if r.sid == sid then f r else r) := by
  unfold getSession sessionsUpdate
  rw [List.find?_map]
  have hpred : ((fun s => s.sid == s2) ∘ fun s => if s.sid == sid then f s else s)
      = fun s => s.sid == s2 := by
    funext r
    by_cases h : (r.sid == sid) = true
    · simp [Function.comp, h, hf r]
    · simp [Function.comp, h]
  rw [hpred]

theorem getSession_sessionsInsert_fresh (d : DB) (row : SessionRow) (s2 : String)
    (hs : row.sid = s2) (h : getSession d s2 = none) :
    getSession (sessionsInsert d row) s2 = some row := by
  subst hs
  unfold getSession sessionsInsert
  unfold getSession at h
  rw [List.find?_append, h]
  simp [List.find?]

theorem startReview_fst (db : DB) (sid : String) (aws : CompCall String)
    (ag : EngineCall AgentAnalysisResult) : (startReview db sid aws ag).1 = db := by
  unfold startReview
  cases analyzeAWSData ag with
  | error e => split <;> rfl
  | ok agent => split <;> rfl

theorem startReview_throws (db : DB) (sid : String) (aws : CompCall String)
    (ag : EngineCall AgentAnalysisResult) :
    exceptIsOk (startReview db sid aws ag).2 = false := by
  unfold startReview
  cases analyzeAWSData ag with
  | error e => split <;> rfl
  | ok agent => split <;> rfl

theorem sessionStatus_failedUpdate (d : DB) (sid : String)
    (h : (getSession d sid).isSome = true) :
    sessionStatus (sessionsUpdate d sid
      (fun s => { s with analysis_status := "failed" })) sid = some "failed" := by
  unfold sessionStatus
  rw [getSession_sessionsUpdate d sid
    (fun s => { s with analysis_status := "failed" }) (fun r => rfl) sid]
  cases ho : getSession d sid with
  | none => rw [ho] at h; exact Bool.noConfusion h
  | some r =>
    have ho2 : d.sessions.find? (fun s => s.sid == sid) = some r := ho
    have hr := List.find?_some ho2
    simp only [] at hr
    have hr2 : r.sid = sid := by simpa using hr
    simp [hr2]

theorem submitFinish_fst_answers (d : DB) (s : String) (count : Nat) (rc : EngineCall Report) :
    (submitFinish d s count rc).1.answers = d.answers := by
  unfold submitFinish
  cases hx : generateFinalReport d s rc with
  | mk d3 r2 =>
    have h := generateFinalReport_answers d s rc
    rw [hx] at h
    cases r2 with
    | error e =>
      split
      · exact h
      · rfl
    | ok r =>
      split
      · exact h
      · rfl

theorem submitFinish_fst_questions (d : DB) (s : String) (count : Nat) (rc : EngineCall Report) :
    (submitFinish d s count rc).1.questions = d.questions := by
  unfold submitFinish
  cases hx : generateFinalReport d s rc with
  | mk d3 r2 =>
    have h := generateFinalReport_questions d s rc
    rw [hx] at h
    cases r2 with
    | error e =>
      split
      · exact h
      · rfl
    | ok r =>
      split
      · exact h
      · rfl

theorem submitFinish_fst_pillars (d : DB) (s : String) (count : Nat) (rc : EngineCall Report) :
    (submitFinish d s count rc).1.pillars = d.pillars := by
  unfold submitFinish
  cases hx : generateFinalReport d s rc with
  | mk d3 r2 =>
    have h := generateFinalReport_pillars d s rc
    rw [hx] at h
    cases r2 with
    | error e =>
      split
      · exact h
      · rfl
    | ok r =>
      split
      · exact h
      · rfl

theorem submitFinish_ok_result (d : DB) (s : String) (count : Nat) (rc : EngineCall Report)
    (res : SubmitResult) (hres : (submitFinish d s count rc).2 = .ok res) :
    res = ⟨count, (getUnansweredQuestions d s).head?, d.questions.length,
           d.questions.length - (getUnansweredQuestions d s).length,
           (getUnansweredQuestions d s).head?.isNone⟩ := by
  unfold submitFinish at hres
  cases hx : generateFinalReport d s rc with
  | mk d3 r2 =>
    rw [hx] at hres
    have hq3 : d3.questions = d.questions := by
      have h := generateFinalReport_questions d s rc
      rw [hx] at h
      exact h
    cases r2 with
    | error e =>
      split at hres
      · exact Except.noConfusion hres
      · cases hres
        rfl
    | ok r =>
      split at hres
      · cases hres
        unfold getTotalQuestions
        rw [hq3]
      · cases hres
        rfl

theorem submitFinish_reportCalls_ok (d : DB) (s : String) (count : Nat) (rc : EngineCall Report)
    (res : SubmitResult) (hres : (submitFinish d s count rc).2 = .ok res) :
    (submitFinish d s count rc).1.reportCalls =
      d.reportCalls + (if (getUnansweredQuestions d s).head?.isNone then 1 else 0) := by
  unfold submitFinish at hres ⊢
  cases hx : generateFinalReport d s rc with
  | mk d3 r2 =>
    rw [hx] at hres
    cases r2 with
    | error e =>
      split at hres
      next hc => exact Except.noConfusion hres
      next hc =>
        rw [if_neg hc, if_neg hc]
        rfl
    | ok r =>
      split at hres
      next hc =>
        rw [if_pos hc, if_pos hc]
        have h2 : (generateFinalReport d s rc).2 = .ok r := by rw [hx]
        have h := generateFinalReport_reportCalls_of_ok d s rc r h2
        rw [hx] at h
        exact h
      next hc =>
        rw [if_neg hc, if_neg hc]
        rfl

theorem submitUserAnswer_run (db : DB) (sid qk ua : String)
    (ec : EngineCall UserAnswerAnalysis) (rc : EngineCall Report)
    (q : Question) (j : UserAnswerAnalysis)
    (hq : findQuestionByKey db qk = some q) (hj : analyzeUserAnswer qk ec = .ok j) :
    submitUserAnswer db sid qk ua ec rc =
      submitFinish
        (storeDerivedAnswers (answersInsertOrReplace db q.qid sid ua (9/10) "user")
          sid (j.additionalAnswers.getD []))
        sid (j.additionalAnswers.getD []).length rc := by
  unfold submitUserAnswer
  rw [hq, hj]

/-! ### Claim theorems -/

/-- C1: the claim states that submitting an answer for an already-answered
`(session, question)` pair leaves exactly one Answer row, the second
submission's values replacing the first (idempotent last-write-wins upsert).
The code violates this: `INSERT OR REPLACE INTO answers` has no
`UNIQUE (question_id, session_id)` constraint to conflict with, so a second
identical submission appends a second row — after one submission for
`(s, OPS01)` there is one row, after the identical resubmission there are
two. -/
theorem c1_resubmission_accumulates_rows :
    (answersFor
      (submitUserAnswer oneQDb "s" "OPS01" "We document priorities"
        (.ok none) (.ok none)).1 1 "s").length = 1 ∧
    (answersFor
      (submitUserAnswer
        (submitUserAnswer oneQDb "s" "OPS01" "We document priorities"
          (.ok none) (.ok none)).1
        "s" "OPS01" "We document priorities" (.ok none) (.ok none)).1 1 "s").length = 2 := by
  decide

/-- C2: the claim states that a successful `startReview` background run sets
the session to `in_progress`, with `completed` reached only later through
the interactive phase.  The code diverges: no successful run exists at all.
`storeInitialAnalysis` throws on every invocation (its insert names the
column `progress_data`, which the `analysis_sessions` table does not
declare), so `startReview` — for every store, session id and pair of
external-call outcomes — propagates an error instead of returning, and the
start route's detached catch then marks the session `failed`: even the run
in which every external call succeeds ends `processing → failed`, never
storing `in_progress` (the `completed` update of `startReview` is dead
code). -/
theorem c2_startReview_never_succeeds :
    (∀ (db : DB) (sid : String) (aws : CompCall String)
        (ag : EngineCall AgentAnalysisResult),
      exceptIsOk (startReview db sid aws ag).2 = false) ∧
    sessionStatus (startRoute noSessionDb "s" awsOk
        (.ok (some ⟨some [], some 0⟩))).1 "s" = some "failed" :=
  ⟨fun db sid aws ag => startReview_throws db sid aws ag, by decide⟩

/-- C3 counterexample: question `SEC01` already has a user answer in session
`s`, yet when the engine returns a derived answer targeting `SEC01`, the
derived-answer step of `submitUserAnswer` writes an `agent_derived` row for
it — the claim that derived answers are written only for questions with no
existing answer is false on the code, which performs no such check. -/
theorem c3_cex_derived_written_for_answered_question :
    (answersFor sec01AnsweredDb 6 "s").length = 1 ∧
    ((submitUserAnswer sec01AnsweredDb "s" "OPS01" "Our priorities are documented"
        (.ok (some ⟨none, some [⟨"SEC01", "Derived from the OPS01 answer", 3/4⟩], none⟩))
        (.ok none)).1.answers.filter
      (fun a => a.question_id == 6 && a.session_id == "s" && a.source == "agent_derived")).length
      = 1 := by
  decide

/-- C4 counterexample: the claim states report synthesis runs at most once
per session, triggered only on the `>0 → 0` transition of the unanswered
count.  On a one-question store, the first submission triggers the report
(one engine call), and resubmitting an answer for the already-answered
question triggers it again (two engine calls): the code invokes
`generateFinalReport` on every submission that ends with zero unanswered
questions. -/
theorem c4_cex_report_generated_twice :
    (submitUserAnswer oneQDb "s" "OPS01" "We document priorities"
      (.ok none) (.ok none)).1.reportCalls = 1 ∧
    (submitUserAnswer
      (submitUserAnswer oneQDb "s" "OPS01" "We document priorities"
        (.ok none) (.ok none)).1
      "s" "OPS01" "We document priorities" (.ok none) (.ok none)).1.reportCalls = 2 := by
  decide

/-- C5 counterexample: the claim states `isComplete` is true iff every known
question has exactly one answer scoped to the session.  On a store whose
session row carries `analysis_status = 'completed'` but which has no answers
at all, `getReviewStatus` reports `isComplete = true` while the coverage
predicate is false: the flag reads only the stored status. -/
theorem c5_cex_isComplete_without_coverage :
    (getReviewStatus completedNoAnswersDb "s").toOption.map (fun st => st.isComplete)
        = some true ∧
    fullCoverage completedNoAnswersDb "s" = false := by
  decide

/-- C6 counterexample: the claim states a failing background run transitions
the session to `failed` *with an error detail attached*.  The catch in the
start route updates only `analysis_status`: two runs whose AWS analysis
fails with different error messages leave byte-for-byte identical stores —
so no stored field can hold the error detail (it is only logged). -/
theorem c6_cex_no_error_detail_stored :
    (startRoute noSessionDb "s" ⟨false, some "boom", none⟩ (.ok none)).1 =
      (startRoute noSessionDb "s" ⟨false, some "a different failure", none⟩ (.ok none)).1 ∧
    sessionStatus (startRoute noSessionDb "s" ⟨false, some "boom", none⟩ (.ok none)).1 "s"
        = some "failed" := by
  decide

/-- C9 counterexample: with two unanswered questions of equal priority —
`OPS01` (id 1, pillar `Operational Excellence`) seeded before `COST01`
(id 21, pillar `Cost Optimization`) — `getUnansweredQuestions` returns
`[OPS01, COST01]` (its `ORDER BY q.priority DESC, q.id ASC`), while the
claimed order (descending priority, then pillar name, then category) puts
`COST01` first. -/
theorem c9_cex_order_ignores_pillar_name :
    (getUnansweredQuestions twoPillarDb "s").map (fun u => u.question_key)
        = ["OPS01", "COST01"] ∧
    (specGetUnansweredQuestions twoPillarDb "s").map (fun u => u.question_key)
        = ["COST01", "OPS01"] ∧
    getUnansweredQuestions twoPillarDb "s" ≠ specGetUnansweredQuestions twoPillarDb "s" := by
  decide

/-- C8: when the Narrative Analysis Engine's derivation response cannot be
parsed as structured data (`analyzeUserAnswer` returns its fallback with
zero additional answers), `submitUserAnswer` still records exactly the
primary user answer — one new row with source `user` and confidence 0.9 —
whatever the report call does, and a successful submission reports zero
derived answers.  The derivation step never blocks the primary answer on
parse failure. -/
theorem c8_parse_failure_fail_soft (db : DB) (sid qk ua : String) (rc : EngineCall Report)
    (q : Question) (hq : findQuestionByKey db qk = some q) :
    (submitUserAnswer db sid qk ua (.ok none) rc).1.answers
        = db.answers ++ [⟨db.nextAnswerId, q.qid, sid, ua, 9/10, "user"⟩] ∧
    (∀ res, (submitUserAnswer db sid qk ua (.ok none) rc).2 = .ok res →
      res.additionalAnswersCount = 0) := by
  have hj : analyzeUserAnswer qk (.ok none) =
      .ok ⟨some ⟨qk, "Answer recorded", 4/5⟩, some [], some []⟩ := rfl
  have hrun := submitUserAnswer_run db sid qk ua (.ok none) rc q _ hq hj
  constructor
  · rw [hrun, submitFinish_fst_answers]
    rfl
  · intro res hres
    rw [hrun] at hres
    have h := submitFinish_ok_result _ _ _ _ _ hres
    subst h
    rfl

/-- C8 witness: concrete run on the two-question store with a parse failure
and a report call that would throw: the primary answer is appended and a
successful result reports zero derived answers. -/
theorem c8_witness :
    findQuestionByKey twoQNoSessionDb "OPS01" = some qOPS01 ∧
    ((submitUserAnswer twoQNoSessionDb "w" "OPS01" "text" (.ok none) (.threw "quota")).1.answers
        = twoQNoSessionDb.answers ++ [⟨1, 1, "w", "text", 9/10, "user"⟩] ∧
      (∀ res, (submitUserAnswer twoQNoSessionDb "w" "OPS01" "text"
          (.ok none) (.threw "quota")).2 = .ok res →
        res.additionalAnswersCount = 0)) :=
  ⟨by decide,
   c8_parse_failure_fail_soft twoQNoSessionDb "w" "OPS01" "text" (.threw "quota") qOPS01
     (by decide)⟩

/-- C3 amended: the derived-answer step writes an `agent_derived` row for
every derived answer whose question key resolves, unconditionally — there is
no check whether the question already has an Answer in the session, so a
derived answer targeting an already-answered question adds a further row for
it (the prior row itself is not modified, but the question no longer has a
single Answer). -/
theorem c3_amended_derived_written_unconditionally (db : DB) (sid qk ua : String)
    (j : UserAnswerAnalysis) (rc : EngineCall Report) (q rq : Question)
    (aa : AdditionalAnswer)
    (hq : findQuestionByKey db qk = some q)
    (hmem : aa ∈ j.additionalAnswers.getD [])
    (hrq : findQuestionByKey db aa.questionKey = some rq) :
    ((submitUserAnswer db sid qk ua (.ok (some j)) rc).1.answers.any
      (fun a => a.question_id == rq.qid && a.session_id == sid &&
                a.answer_text == aa.answer && a.source == "agent_derived")) = true := by
  have hj : analyzeUserAnswer qk (.ok (some j)) = .ok j := rfl
  rw [submitUserAnswer_run db sid qk ua (.ok (some j)) rc q j hq hj,
      submitFinish_fst_answers]
  have hrq1 : findQuestionByKey (answersInsertOrReplace db q.qid sid ua (9/10) "user")
      aa.questionKey = some rq := hrq
  obtain ⟨a, ha, h1, h2, h3, h4, h5⟩ :=
    storeDerivedAnswers_writes (j.additionalAnswers.getD []) _ sid aa rq hmem hrq1
  apply List.any_eq_true.mpr
  refine ⟨a, ha, ?_⟩
  simp [h1, h2, h3, h5]

/-- C3 amended witness: the concrete run of the counterexample store through
the amended statement — the derived answer for the already-answered `SEC01`
is present after the submission. -/
theorem c3_amended_witness :
    findQuestionByKey sec01AnsweredDb "OPS01" = some qOPS01 ∧
    (⟨"SEC01", "Derived", 3/4⟩ : AdditionalAnswer) ∈
      ((⟨none, some [⟨"SEC01", "Derived", 3/4⟩], none⟩ :
        UserAnswerAnalysis).additionalAnswers.getD []) ∧
    findQuestionByKey sec01AnsweredDb "SEC01" = some qSEC01 ∧
    ((submitUserAnswer sec01AnsweredDb "s" "OPS01" "ans"
        (.ok (some ⟨none, some [⟨"SEC01", "Derived", 3/4⟩], none⟩)) (.ok none)).1.answers.any
      (fun a => a.question_id == qSEC01.qid && a.session_id == "s" &&
                a.answer_text == (⟨"SEC01", "Derived", 3/4⟩ : AdditionalAnswer).answer &&
                a.source == "agent_derived")) = true :=
  ⟨by decide, List.Mem.head _, by decide,
   c3_amended_derived_written_unconditionally sec01AnsweredDb "s" "OPS01" "ans"
     ⟨none, some [⟨"SEC01", "Derived", 3/4⟩], none⟩ (.ok none) qOPS01 qSEC01
     ⟨"SEC01", "Derived", 3/4⟩ (by decide) (List.Mem.head _) (by decide)⟩

/-- C4 amended: report synthesis is invoked on every successful answer
submission after which no unanswered question remains — the submission at
which the count first reaches zero, but also any later resubmission — and on
no other submission: the report-call counter grows by one exactly when the
result says the session is complete. -/
theorem c4_amended_report_on_every_complete_submission (db : DB) (sid qk ua : String)
    (ec : EngineCall UserAnswerAnalysis) (rc : EngineCall Report)
    (q : Question) (j : UserAnswerAnalysis) (res : SubmitResult)
    (hq : findQuestionByKey db qk = some q) (hj : analyzeUserAnswer qk ec = .ok j)
    (hres : (submitUserAnswer db sid qk ua ec rc).2 = .ok res) :
    (submitUserAnswer db sid qk ua ec rc).1.reportCalls =
      db.reportCalls + (if res.isComplete then 1 else 0) := by
  have hrun := submitUserAnswer_run db sid qk ua ec rc q j hq hj
  rw [hrun] at hres ⊢
  have hcalls := submitFinish_reportCalls_ok _ _ _ _ _ hres
  have hresq := submitFinish_ok_result _ _ _ _ _ hres
  rw [hcalls]
  have hframe := (storeDerivedAnswers_frame (j.additionalAnswers.getD [])
    (answersInsertOrReplace db q.qid sid ua (9/10) "user") sid).2.2.2
  rw [hframe, hresq]
  rfl

/-- C4 amended witness: the first (completing) submission on the
one-question store bumps the counter by one, matching the amended
equation. -/
theorem c4_amended_witness :
    findQuestionByKey oneQDb "OPS01" = some qOPS01 ∧
    analyzeUserAnswer "OPS01" (.ok none) =
      .ok ⟨some ⟨"OPS01", "Answer recorded", 4/5⟩, some [], some []⟩ ∧
    (submitUserAnswer oneQDb "s" "OPS01" "x" (.ok none) (.ok none)).2
        = .ok ⟨0, none, 1, 1, true⟩ ∧
    (submitUserAnswer oneQDb "s" "OPS01" "x" (.ok none) (.ok none)).1.reportCalls =
      oneQDb.reportCalls +
        (if (⟨0, none, 1, 1, true⟩ : SubmitResult).isComplete then 1 else 0) :=
  ⟨by decide, rfl, rfl,
   c4_amended_report_on_every_complete_submission oneQDb "s" "OPS01" "x"
     (.ok none) (.ok none) qOPS01 ⟨some ⟨"OPS01", "Answer recorded", 4/5⟩, some [], some []⟩
     ⟨0, none, 1, 1, true⟩ (by decide) rfl rfl⟩

/-- C10 amended: every Answer row written by `submitUserAnswer` or by a
`startReview` run references an existing question — `submitUserAnswer`
inserts answers only for question rows it just looked up, and `startReview`
writes none at all (it throws before its answer-storing step) — but the
session reference is not validated (see the counterexample), so only the
question-reference half of the claimed invariant holds. -/
theorem c10_amended_question_refs_preserved (db : DB) (sid qk ua : String)
    (ec : EngineCall UserAnswerAnalysis) (rc : EngineCall Report)
    (sid2 : String) (aws : CompCall String) (ag : EngineCall AgentAnalysisResult)
    (hinv : ∀ a ∈ db.answers, ∃ q ∈ db.questions, q.qid = a.question_id) :
    (∀ a ∈ (submitUserAnswer db sid qk ua ec rc).1.answers,
        ∃ q ∈ db.questions, q.qid = a.question_id) ∧
    (∀ a ∈ (startReview db sid2 aws ag).1.answers,
        ∃ q ∈ db.questions, q.qid = a.question_id) := by
  constructor
  · cases hfq : findQuestionByKey db qk with
    | none =>
      unfold submitUserAnswer
      rw [hfq]
      exact hinv
    | some q =>
      cases hja : analyzeUserAnswer qk ec with
      | error e =>
        unfold submitUserAnswer
        rw [hfq, hja]
        exact hinv
      | ok j =>
        rw [submitUserAnswer_run db sid qk ua ec rc q j hfq hja]
        intro a ha
        rw [submitFinish_fst_answers] at ha
        refine storeDerivedAnswers_refs _ _ sid db.questions ?_ ?_ a ha
        · rfl
        intro b hb
        rcases List.mem_append.mp hb with h | h
        · exact hinv b h
        · rcases List.mem_singleton.mp h with rfl
          exact ⟨q, findQuestionByKey_mem hfq, rfl⟩
  · intro a ha
    rw [startReview_fst] at ha
    exact hinv a ha

/-- C10 amended witness: the ghost-session submission still satisfies the
question-reference invariant, as does a fresh `startReview` run. -/
theorem c10_amended_witness :
    (∀ a ∈ (twoQNoSessionDb).answers, ∃ q ∈ twoQNoSessionDb.questions, q.qid = a.question_id) ∧
    ((∀ a ∈ (submitUserAnswer twoQNoSessionDb "ghost" "OPS01" "answer text"
          (.ok none) (.ok none)).1.answers,
        ∃ q ∈ twoQNoSessionDb.questions, q.qid = a.question_id) ∧
     (∀ a ∈ (startReview twoQNoSessionDb "s" awsOk (.ok none)).1.answers,
        ∃ q ∈ twoQNoSessionDb.questions, q.qid = a.question_id)) :=
  ⟨by decide,
   c10_amended_question_refs_preserved twoQNoSessionDb "ghost" "OPS01" "answer text"
     (.ok none) (.ok none) "s" awsOk (.ok none) (by decide)⟩

/-- C10 counterexample: the claim states no operation creates an Answer
scoped to a session id for which no Session was ever created.
`submitUserAnswer` never checks the session id: on a store with no session
rows at all, it succeeds and stores an answer scoped to the nonexistent
session `ghost`. -/
theorem c10_cex_answer_for_nonexistent_session :
    ((submitUserAnswer twoQNoSessionDb "ghost" "OPS01" "answer text"
        (.ok none) (.ok none)).1.answers.any (fun a => a.session_id == "ghost")) = true ∧
    getSession (submitUserAnswer twoQNoSessionDb "ghost" "OPS01" "answer text"
        (.ok none) (.ok none)).1 "ghost" = none ∧
    exceptIsOk (submitUserAnswer twoQNoSessionDb "ghost" "OPS01" "answer text"
        (.ok none) (.ok none)).2 = true := by
  decide


/-- C5 amended: the completion flag of `getReviewStatus` reflects the stored
session status (`analysis_status === 'completed'`), not answer coverage; the
flag returned by `submitUserAnswer` is true iff every question joined to an
existing pillar has at least one Answer scoped to the session — neither
operation checks the claimed "exactly one Answer per question". -/
theorem c5_amended_completion_flags :
    (∀ (db : DB) (sid : String) (st : StatusDescriptor),
        getReviewStatus db sid = .ok st →
        (st.isComplete = true ↔ sessionStatus db sid = some "completed")) ∧
    (∀ (db : DB) (sid qk ua : String) (ec : EngineCall UserAnswerAnalysis)
        (rc : EngineCall Report) (res : SubmitResult),
        (submitUserAnswer db sid qk ua ec rc).2 = .ok res →
        (res.isComplete = true ↔
          ∀ q ∈ (submitUserAnswer db sid qk ua ec rc).1.questions, ∀ p,
            (submitUserAnswer db sid qk ua ec rc).1.pillars.find?
                (fun pp => pp.pid == q.pillar_id) = some p →
            hasAnswer (submitUserAnswer db sid qk ua ec rc).1 sid q.qid = true)) := by
  constructor
  · intro db sid st hst
    unfold getReviewStatus at hst
    cases hs : getSession db sid with
    | none => rw [hs] at hst; exact Except.noConfusion hst
    | some session =>
      rw [hs] at hst
      cases hst
      simp [sessionStatus, hs, beq_iff_eq]
  · intro db sid qk ua ec rc res hres
    cases hfq : findQuestionByKey db qk with
    | none =>
      unfold submitUserAnswer at hres
      rw [hfq] at hres
      exact Except.noConfusion hres
    | some q =>
      cases hja : analyzeUserAnswer qk ec with
      | error e =>
        unfold submitUserAnswer at hres
        rw [hfq, hja] at hres
        exact Except.noConfusion hres
      | ok j =>
        have hrun := submitUserAnswer_run db sid qk ua ec rc q j hfq hja
        rw [hrun] at hres ⊢
        have hresq := submitFinish_ok_result _ _ _ _ _ hres
        subst hresq
        simp only [submitFinish_fst_questions, submitFinish_fst_pillars]
        have hAns : ∀ x, hasAnswer
            (submitFinish (storeDerivedAnswers
              (answersInsertOrReplace db q.qid sid ua (9/10) "user") sid
              (j.additionalAnswers.getD []))
              sid (j.additionalAnswers.getD []).length rc).1 sid x
            = hasAnswer (storeDerivedAnswers
              (answersInsertOrReplace db q.qid sid ua (9/10) "user") sid
              (j.additionalAnswers.getD [])) sid x :=
          fun x => hasAnswer_congr sid x (submitFinish_fst_answers _ _ _ _)
        simp only [hAns]
        rw [← getUnansweredQuestions_eq_nil_iff]
        simp [Option.isNone_iff_eq_none, List.head?_eq_none_iff]

/-- C5 amended witness: on the completed-but-unanswered store the status
flag tracks the stored status; on the one-question store the submit flag is
equivalent to full answering of the joined questions. -/
theorem c5_amended_witness :
    ((⟨"s", "completed", 1, 0, 1,
        some ⟨1, "OPS01", "How do you determine what your priorities are?",
          "Organization", "Operational Excellence"⟩, true, some 0⟩ :
        StatusDescriptor).isComplete = true ↔
      sessionStatus completedNoAnswersDb "s" = some "completed") ∧
    ((⟨0, none, 1, 1, true⟩ : SubmitResult).isComplete = true ↔
      ∀ q ∈ (submitUserAnswer oneQDb "s" "OPS01" "x" (.ok none) (.ok none)).1.questions, ∀ p,
        (submitUserAnswer oneQDb "s" "OPS01" "x" (.ok none) (.ok none)).1.pillars.find?
            (fun pp => pp.pid == q.pillar_id) = some p →
        hasAnswer (submitUserAnswer oneQDb "s" "OPS01" "x" (.ok none) (.ok none)).1 "s" q.qid
          = true) :=
  ⟨c5_amended_completion_flags.1 completedNoAnswersDb "s" _ rfl,
   c5_amended_completion_flags.2 oneQDb "s" "OPS01" "x" (.ok none) (.ok none)
     ⟨0, none, 1, 1, true⟩ rfl⟩

/-- C9 amended: `getUnansweredQuestions` returns exactly the questions
joined to an existing pillar with no Answer scoped to the session — as a
permutation of the join, sorted by descending priority and then ascending
question id (not by pillar name and category); the HTTP unanswered endpoint
sorts by the claimed priority/pillar-name/category order instead. -/
theorem c9_amended_order_priority_then_id :
    (∀ (db : DB) (s : String), List.Sorted priorityIdOrder (sortedUnanswered db s)) ∧
    (∀ (db : DB) (s : String), (sortedUnanswered db s).Perm (unansweredRows db s)) ∧
    (∀ (db : DB) (s : String) (qp : Question × Pillar),
      qp ∈ unansweredRows db s ↔
        qp.1 ∈ db.questions ∧
        db.pillars.find? (fun p => p.pid == qp.1.pillar_id) = some qp.2 ∧
        hasAnswer db s qp.1.qid = false) ∧
    (∀ (db : DB) (s : String),
      getUnansweredQuestions db s = (sortedUnanswered db s).map
        (fun qp => ⟨qp.1.qid, qp.1.question_key, qp.1.question_text,
                    qp.1.category, qp.2.name⟩)) ∧
    (∀ (db : DB) (s : String),
      List.Sorted pillarCategoryOrder
        (List.insertionSort pillarCategoryOrder (unansweredRows db s))) := by
  refine ⟨fun db s => List.sorted_insertionSort priorityIdOrder _,
          fun db s => List.perm_insertionSort priorityIdOrder _,
          fun db s qp => ?_,
          fun db s => rfl,
          fun db s => List.sorted_insertionSort pillarCategoryOrder _⟩
  unfold unansweredRows
  rw [List.mem_filter, List.mem_filterMap]
  constructor
  · rintro ⟨⟨q, hq, hmap⟩, hpred⟩
    rcases Option.map_eq_some'.mp hmap with ⟨p, hfind, hqp_eq⟩
    cases hqp_eq
    refine ⟨hq, hfind, ?_⟩
    simpa using hpred
  · rintro ⟨hq, hfind, hans⟩
    refine ⟨⟨qp.1, hq, ?_⟩, ?_⟩
    · rw [hfind]
      simp [Prod.mk.eta]
    · simp [hans]


/-- C6 amended: when the background review task fails, the start route does
not raise — its HTTP response is the normal `processing` acknowledgement,
computed before the background task runs — and the detached catch
transitions the session to `failed`; the error itself is only logged, no
stored field of the session records it (see the counterexample). -/
theorem c6_amended_failure_sets_failed (db : DB) (sid : String) (aws : CompCall String)
    (ag : EngineCall AgentAnalysisResult)
    (hfresh : getSession db sid = none) (haws : aws.success = false) :
    (startRoute db sid aws ag).2 = ⟨200, true, some sid, some "processing", none⟩ ∧
    sessionStatus (startRoute db sid aws ag).1 sid = some "failed" := by
  unfold startRoute
  rw [hfresh]
  constructor
  · rfl
  · have hred : (startReview (sessionsInsert db ⟨sid, none, "processing", none, none⟩)
        sid aws ag)
        = (sessionsInsert db ⟨sid, none, "processing", none, none⟩,
           Except.error ("AWS analysis failed: " ++ aws.error.getD "undefined")) := by
      simp [startReview, updateProgress, haws]
    rw [hred]
    apply sessionStatus_failedUpdate
    rw [getSession_sessionsInsert_fresh db ⟨sid, none, "processing", none, none⟩ sid rfl
      hfresh]
    rfl

/-- C6 amended witness: the concrete failing run acknowledges with the
normal response and ends with the session marked `failed`. -/
theorem c6_amended_witness :
    getSession noSessionDb "s" = none ∧
    ((startRoute noSessionDb "s" ⟨false, some "boom", none⟩ (.ok none)).2
        = ⟨200, true, some "s", some "processing", none⟩ ∧
     sessionStatus (startRoute noSessionDb "s" ⟨false, some "boom", none⟩ (.ok none)).1 "s"
        = some "failed") :=
  ⟨by decide,
   c6_amended_failure_sets_failed noSessionDb "s" ⟨false, some "boom", none⟩ (.ok none)
     (by decide) rfl⟩


/-- C7: for every assignment of outcomes to the six environment
sub-collector promises — advisory checks (trustedAdvisor), cost, identity
(iam), compute, metrics (cloudWatch), compliance (config) — the
comprehensive-collection join returns `success: true` with no error, keeps
every branch's data payload individually, and captures each branch's outcome
without short-circuiting: a successful branch appears in neither issue list,
a subscription-required failure contributes exactly its warning entry, any
other failure exactly its error entry, and the per-branch counts add up to
six.  Additionally, `analyzeTrustedAdvisor`'s catch classifies exactly the
`SubscriptionRequiredException` failures as `SUBSCRIPTION_REQUIRED` with a
present (unavailable-stub) data payload. -/
theorem c7_join_tolerates_all_failure_subsets {δ : Type}
    (ta c i co cw cf : SettledResult δ) :
    (performComprehensiveAnalysis ta c i co cw cf).success = true ∧
    (performComprehensiveAnalysis ta c i co cw cf).error = none ∧
    ((performComprehensiveAnalysis ta c i co cw cf).data.map (fun cp => cp.trustedAdvisor)
        = some (resolveSettled ta).data ∧
     (performComprehensiveAnalysis ta c i co cw cf).data.map (fun cp => cp.cost)
        = some (resolveSettled c).data ∧
     (performComprehensiveAnalysis ta c i co cw cf).data.map (fun cp => cp.iam)
        = some (resolveSettled i).data ∧
     (performComprehensiveAnalysis ta c i co cw cf).data.map (fun cp => cp.compute)
        = some (resolveSettled co).data ∧
     (performComprehensiveAnalysis ta c i co cw cf).data.map (fun cp => cp.cloudWatch)
        = some (resolveSettled cw).data ∧
     (performComprehensiveAnalysis ta c i co cw cf).data.map (fun cp => cp.config)
        = some (resolveSettled cf).data) ∧
    (compStatus (performComprehensiveAnalysis ta c i co cw cf)).totalServices = 6 ∧
    (compStatus (performComprehensiveAnalysis ta c i co cw cf)).successfulServices
      + ((compStatus (performComprehensiveAnalysis ta c i co cw cf)).errors.length
        + (compStatus (performComprehensiveAnalysis ta c i co cw cf)).warnings.length) = 6 ∧
    (branchCaptured "trustedAdvisor" (resolveSettled ta)
        (compStatus (performComprehensiveAnalysis ta c i co cw cf)) ∧
     branchCaptured "cost" (resolveSettled c)
        (compStatus (performComprehensiveAnalysis ta c i co cw cf)) ∧
     branchCaptured "iam" (resolveSettled i)
        (compStatus (performComprehensiveAnalysis ta c i co cw cf)) ∧
     branchCaptured "compute" (resolveSettled co)
        (compStatus (performComprehensiveAnalysis ta c i co cw cf)) ∧
     branchCaptured "cloudWatch" (resolveSettled cw)
        (compStatus (performComprehensiveAnalysis ta c i co cw cf)) ∧
     branchCaptured "config" (resolveSettled cf)
        (compStatus (performComprehensiveAnalysis ta c i co cw cf))) ∧
    (∀ nm ty msg : String,
      (analyzeTrustedAdvisorCatch nm ty msg).success = false ∧
      ((analyzeTrustedAdvisorCatch nm ty msg).errorType = some "SUBSCRIPTION_REQUIRED"
        ↔ (nm = "SubscriptionRequiredException" ∨ ty = "SubscriptionRequiredException")) ∧
      ((analyzeTrustedAdvisorCatch nm ty msg).data.isSome = true
        ↔ (nm = "SubscriptionRequiredException" ∨ ty = "SubscriptionRequiredException"))) := by
  have hstat : compStatus (performComprehensiveAnalysis ta c i co cw cf)
      = ⟨(serviceEntries ta c i co cw cf).filterMap errEntry,
         (serviceEntries ta c i co cw cf).filterMap warnEntry,
         ((serviceEntries ta c i co cw cf).filter (fun nr => nr.2.success)).length, 6⟩ := by
    unfold compStatus
    simp only [performComprehensiveAnalysis]
    rw [classifyIssues_eq]
    rfl
  have hnd : ((serviceEntries ta c i co cw cf).map Prod.fst).Nodup := by
    show (["trustedAdvisor", "cost", "iam", "compute", "cloudWatch", "config"] :
      List String).Nodup
    decide
  refine ⟨rfl, rfl, ⟨rfl, rfl, rfl, rfl, rfl, rfl⟩, by rw [hstat], ?_, ?_, ?_⟩
  · rw [hstat]
    exact (classifyIssues_length (serviceEntries ta c i co cw cf)).trans rfl
  · rw [hstat]
    exact ⟨classifyIssues_captures _ hnd _ _ (List.Mem.head _) _ rfl rfl,
      classifyIssues_captures _ hnd _ _ (List.Mem.tail _ (List.Mem.head _)) _ rfl rfl,
      classifyIssues_captures _ hnd _ _
        (List.Mem.tail _ (List.Mem.tail _ (List.Mem.head _))) _ rfl rfl,
      classifyIssues_captures _ hnd _ _
        (List.Mem.tail _ (List.Mem.tail _ (List.Mem.tail _ (List.Mem.head _)))) _ rfl rfl,
      classifyIssues_captures _ hnd _ _
        (List.Mem.tail _ (List.Mem.tail _ (List.Mem.tail _ (List.Mem.tail _
          (List.Mem.head _))))) _ rfl rfl,
      classifyIssues_captures _ hnd _ _
        (List.Mem.tail _ (List.Mem.tail _ (List.Mem.tail _ (List.Mem.tail _
          (List.Mem.tail _ (List.Mem.head _)))))) _ rfl rfl⟩
  · intro nm ty msg
    unfold analyzeTrustedAdvisorCatch
    by_cases h : (nm == "SubscriptionRequiredException"
        || ty == "SubscriptionRequiredException") = true
    · rw [if_pos h]
      have h2 : nm = "SubscriptionRequiredException" ∨ ty = "SubscriptionRequiredException" := by
        simpa using h
      refine ⟨rfl, ?_, ?_⟩ <;> simp [h2]
    · rw [if_neg h]
      have h2 : ¬ (nm = "SubscriptionRequiredException"
          ∨ ty = "SubscriptionRequiredException") := by
        simpa using h
      refine ⟨rfl, ?_, ?_⟩ <;> simp [h2]

/-- C7 witness: a concrete assignment — a subscription-required advisory
failure, a rejected cost promise, four successes — yields overall success,
the advisory warning, the cost error, and the identity branch's data kept. -/
theorem c7_witness :
    (performComprehensiveAnalysis taSubFail .rejected (svcOkNat 1) (svcOkNat 2)
        (svcOkNat 3) (svcOkNat 4)).success = true ∧
    (⟨"trustedAdvisor",
        some "Trusted Advisor requires AWS Business or Enterprise Support plan. Analysis will continue with other AWS services.",
        "warning"⟩ : ServiceIssue)
      ∈ (compStatus (performComprehensiveAnalysis taSubFail .rejected (svcOkNat 1)
          (svcOkNat 2) (svcOkNat 3) (svcOkNat 4))).warnings ∧
    (⟨"cost", some "Analysis failed", "error"⟩ : ServiceIssue)
      ∈ (compStatus (performComprehensiveAnalysis taSubFail .rejected (svcOkNat 1)
          (svcOkNat 2) (svcOkNat 3) (svcOkNat 4))).errors ∧
    (performComprehensiveAnalysis taSubFail .rejected (svcOkNat 1) (svcOkNat 2)
        (svcOkNat 3) (svcOkNat 4)).data.map (fun cp => cp.iam) = some (some 1) := by
  have h := c7_join_tolerates_all_failure_subsets taSubFail .rejected (svcOkNat 1)
    (svcOkNat 2) (svcOkNat 3) (svcOkNat 4)
  refine ⟨h.1, ?_, ?_, h.2.2.1.2.2.1⟩
  · exact (h.2.2.2.2.2.1.1.2.1 rfl rfl).1
  · exact (h.2.2.2.2.2.1.2.1.2.2 rfl (by decide)).1

end Waar
